import Mathlib

/-
Verification of the picoclaw IDE-monitor event-correlation core.

Shallow embedding of `src/ide-monitor/normalizer.py`, `burst_detector.py`,
`confidence.py` and `correlator.py`.  Conventions:

* The Python code reads `time.monotonic()`; every stateful operation here
  takes the current monotonic reading `now : ℤ` as an explicit argument
  (all clock reads inside one Python call are modelled as the same instant;
  instants are integers, which the window arithmetic never constrains).
* Python float scores are modelled as rationals: every constant in the
  scoring rules is a small decimal and all sums stay exact at this scale.
* `uuid4` identifiers are modelled as naturals drawn from an explicit
  fresh-id supply (a counter in the detector state, or a parameter for
  derived correlator events); no correlation decision inspects id values.
* Python truthiness on optional strings / lists is modelled by `strTruthy`
  and `listTruthy` (None and the empty string / empty list are falsy).
* `deque` windows are lists with the head as the oldest entry; the
  append-then-evict loops become `++ [entry]` followed by `dropWhile`.
-/

namespace Picoclaw

/-- A single changed file (normalizer.py `FileChange`). -/
structure FileChange where
  path : String
  change_type : String
  size_bytes : Option Nat := none
deriving Repr, DecidableEq

/-- Canonical event (normalizer.py `WorkflowEvent`), restricted to the fields
the correlation core reads or writes.  Free-text fields (summary, timestamp
string, hostname, workspace ids, model name, extension payload) are not part
of any correlation decision and are omitted. -/
structure WorkflowEvent where
  id : Nat := 0
  source : String := ""
  event_type : String := ""
  confidence : ℚ := 0
  task_id : Option String := none
  task_title : Option String := none
  tokens_prompt : Option Nat := none
  tokens_completion : Option Nat := none
  burst_id : Option Nat := none
  burst_token_total : Option Nat := none
  burst_duration_secs : Option ℤ := none
  burst_entry_count : Option Nat := none
  files_changed : Option (List FileChange) := none
  git_commit_sha : Option String := none
  git_branch : Option String := none
  correlated_events : Option (List Nat) := none
  correlation_type : Option String := none
deriving Repr, DecidableEq

-- The closed event-type taxonomy (normalizer.py `EventType`).
namespace EventType

def COPILOT_PROMPT : String := "copilot.prompt"
def COPILOT_COMPLETION : String := "copilot.completion"
def COPILOT_ERROR : String := "copilot.error"
def COPILOT_BURST_START : String := "copilot.burst_start"
def COPILOT_BURST_END : String := "copilot.burst_end"
def AG_TASK_CREATED : String := "antigravity.task.created"
def AG_TASK_UPDATED : String := "antigravity.task.updated"
def AG_TASK_PROGRESS : String := "antigravity.task.progress"
def AG_TASK_COMPLETED : String := "antigravity.task.completed"
def AG_TASK_FAILED : String := "antigravity.task.failed"
def AG_TASK_WALKTHROUGH : String := "antigravity.task.walkthrough_added"
def AG_TASK_PLAN_READY : String := "antigravity.task.plan_ready"
def AG_TASK_ITERATED : String := "antigravity.task.iterated"
def AG_SKILL_UPDATED : String := "antigravity.skill.updated"
def AG_ARTIFACT_UNKNOWN : String := "antigravity.artifact.unknown"
def GIT_COMMIT : String := "git.commit"
def GIT_COMMIT_LINKED : String := "git.commit_linked_to_task"
def FS_BATCH_MODIFIED : String := "filesystem.batch_modified"
def WORKFLOW_TASK_INFERRED : String := "workflow.task_inferred"
def WORKFLOW_ACTIVITY_CLUSTERED : String := "workflow.activity_clustered"
def WORKFLOW_CONFLICT_DETECTED : String := "workflow.conflict_detected"

end EventType

/-- Python truthiness of an optional string: `None` and `""` are falsy. -/
def strTruthy : Option String → Bool
  | some t => t != ""
  | none => false

/-- Python truthiness of an optional list: `None` and `[]` are falsy. -/
def listTruthy {α : Type} : Option (List α) → Bool
  | some (_ :: _) => true
  | _ => false

/-- Age-based eviction loop (`while window and now - window[0][0] > max_age:
window.popleft()`), shared by every sliding window in the core. -/
def evict {α : Type} (now max_age : ℤ) (w : List (ℤ × α)) : List (ℤ × α) :=
  w.dropWhile (fun en => decide (now - en.1 > max_age))

-- ═══════════════════════════════════════════════════════════════
-- Filesystem burst detector (burst_detector.py `FileBurstDetector`)
-- ═══════════════════════════════════════════════════════════════

structure FileBurstDetector where
  window_secs : ℤ := 5
  threshold : Nat := 3
  recent : List (ℤ × String) := []
deriving Repr, DecidableEq

namespace FileBurstDetector

/-- The queue after one call has appended `(now, path)` and evicted stale
entries, before the threshold test. -/
def post_recent (d : FileBurstDetector) (now : ℤ) (path : String) :
    List (ℤ × String) :=
  evict now d.window_secs (d.recent ++ [(now, path)])

/-- `FileBurstDetector.observe`: append, evict, fire when the queue reaches
the threshold (the minted uuid is modelled by the `fresh_id` argument; the
Python `workspace_root` argument only feeds omitted identity fields). -/
def observe (d : FileBurstDetector) (now : ℤ) (fresh_id : Nat) (path : String) :
    FileBurstDetector × Option WorkflowEvent :=
  let recent1 := d.post_recent now path
  if d.threshold ≤ recent1.length then
    ({ d with recent := [] },
     some { id := fresh_id
            source := "filesystem"
            event_type := EventType.FS_BATCH_MODIFIED
            files_changed :=
              some (recent1.map (fun en =>
                { path := en.2, change_type := "modified" }))
            confidence := 2/5 })
  else
    ({ d with recent := recent1 }, none)

end FileBurstDetector

-- ═══════════════════════════════════════════════════════════════
-- Copilot burst detector (burst_detector.py `CopilotBurstDetector`)
-- ═══════════════════════════════════════════════════════════════

/-- Window entries are `(monotonic_time, tokens_prompt, tokens_completion,
event_id)`, exactly the tuples the Python deque holds. -/
structure CopilotBurstDetector where
  window_secs : ℤ := 120
  token_threshold : Nat := 500
  count_threshold : Nat := 5
  window : List (ℤ × Nat × Nat × Nat) := []
  active_burst_id : Option Nat := none
  burst_start_time : Option ℤ := none
  burst_token_total : Nat := 0
  burst_entry_count : Nat := 0
  fresh : Nat := 0
deriving Repr, DecidableEq

/-- `sum(tp + tc for _, tp, tc, _ in self._window)`. -/
def windowTokens (w : List (ℤ × Nat × Nat × Nat)) : Nat :=
  (w.map (fun en => en.2.1 + en.2.2.1)).sum

namespace CopilotBurstDetector

/-- The sliding window after one `observe` call has appended the current
event (absent token counts default to 0) and evicted expired entries. -/
def post_window (d : CopilotBurstDetector) (now : ℤ) (event : WorkflowEvent) :
    List (ℤ × Nat × Nat × Nat) :=
  evict now d.window_secs
    (d.window ++ [(now, event.tokens_prompt.getD 0, event.tokens_completion.getD 0, event.id)])

/-- The trigger condition of `observe`:
`window_tokens >= token_threshold or window_count >= count_threshold`. -/
def burst_condition (d : CopilotBurstDetector) (w : List (ℤ × Nat × Nat × Nat)) : Prop :=
  d.token_threshold ≤ windowTokens w ∨ d.count_threshold ≤ w.length

instance (d : CopilotBurstDetector) (w : List (ℤ × Nat × Nat × Nat)) :
    Decidable (d.burst_condition w) := by
  unfold burst_condition; infer_instance

/-- `CopilotBurstDetector.is_in_burst`. -/
def is_in_burst (d : CopilotBurstDetector) : Bool :=
  d.active_burst_id.isSome

/-- `CopilotBurstDetector.observe`.  Returns the updated detector, the 0–2
emitted derived events, and the input event as mutated by the trailing
burst-context annotation.  A new burst consumes two fresh ids (the burst id
and the start event's own id); a burst end consumes one. -/
def observe (d : CopilotBurstDetector) (now : ℤ) (event : WorkflowEvent) :
    CopilotBurstDetector × List WorkflowEvent × WorkflowEvent :=
  let w1 := d.post_window now event
  let window_tokens := windowTokens w1
  let window_count := w1.length
  if d.burst_condition w1 then
    match d.active_burst_id with
    | none =>
        -- new burst starts
        let bid := d.fresh
        let start_event : WorkflowEvent :=
          { id := d.fresh + 1
            source := "copilot"
            event_type := EventType.COPILOT_BURST_START
            burst_id := some bid
            burst_token_total := some window_tokens
            burst_entry_count := some window_count
            confidence := 2/5 }
        let d1 := { d with window := w1
                           active_burst_id := some bid
                           burst_start_time := some now
                           burst_token_total := window_tokens
                           burst_entry_count := window_count
                           fresh := d.fresh + 2 }
        (d1, [start_event],
         { event with burst_id := some bid
                      burst_token_total := some window_tokens
                      burst_entry_count := some window_count })
    | some bid =>
        -- burst continues: update running totals only
        let d1 := { d with window := w1
                           burst_token_total := window_tokens
                           burst_entry_count := window_count }
        (d1, [],
         { event with burst_id := some bid
                      burst_token_total := some window_tokens
                      burst_entry_count := some window_count })
  else
    match d.active_burst_id with
    | some bid =>
        -- burst ends
        let duration := now - d.burst_start_time.getD now
        let end_event : WorkflowEvent :=
          { id := d.fresh
            source := "copilot"
            event_type := EventType.COPILOT_BURST_END
            burst_id := some bid
            burst_token_total := some d.burst_token_total
            burst_duration_secs := some duration
            burst_entry_count := some d.burst_entry_count
            confidence := 2/5 }
        let d1 := { d with window := w1
                           active_burst_id := none
                           burst_start_time := none
                           burst_token_total := 0
                           burst_entry_count := 0
                           fresh := d.fresh + 1 }
        (d1, [end_event], event)
    | none =>
        ({ d with window := w1 }, [], event)

/-- `CopilotBurstDetector.flush`: force-close any active burst.  Faithful to
the source, it clears only the active burst id and the start time; the
running totals are left as they are. -/
def flush (d : CopilotBurstDetector) (now : ℤ) :
    CopilotBurstDetector × Option WorkflowEvent :=
  match d.active_burst_id with
  | none => (d, none)
  | some bid =>
      let duration := now - d.burst_start_time.getD now
      let end_event : WorkflowEvent :=
        { id := d.fresh
          source := "copilot"
          event_type := EventType.COPILOT_BURST_END
          burst_id := some bid
          burst_token_total := some d.burst_token_total
          burst_duration_secs := some duration
          burst_entry_count := some d.burst_entry_count
          confidence := 2/5 }
      ({ d with active_burst_id := none
                burst_start_time := none
                fresh := d.fresh + 1 },
       some end_event)

end CopilotBurstDetector

/-- A bare `copilot.completion` event carrying the given token counts. -/
def mkCompletion (i : Nat) (tp tc : Option Nat) : WorkflowEvent :=
  { id := i
    source := "copilot"
    event_type := EventType.COPILOT_COMPLETION
    tokens_prompt := tp
    tokens_completion := tc }

-- 3 completions of 10+10 tokens, count threshold 3, token threshold
-- effectively disabled: burst starts on the 3rd observation.
def copilotScenarioDetector : CopilotBurstDetector :=
  { window_secs := 120, token_threshold := 99999, count_threshold := 3 }

def copilotScenarioStep1 := copilotScenarioDetector.observe 0 (mkCompletion 100 (some 10) (some 10))
def copilotScenarioStep2 := copilotScenarioStep1.1.observe 1 (mkCompletion 101 (some 10) (some 10))
def copilotScenarioStep3 := copilotScenarioStep2.1.observe 2 (mkCompletion 102 (some 10) (some 10))

-- ═══════════════════════════════════════════════════════════════
-- Confidence scorer (confidence.py `ConfidenceScorer`)
-- ═══════════════════════════════════════════════════════════════

/-- Recency windows of `(monotonic_time, reference)`: event ids for the
filesystem and git windows, task ids for the task window. -/
structure ConfidenceScorer where
  recent_fs : List (ℤ × Nat) := []
  recent_git : List (ℤ × Nat) := []
  recent_tasks : List (ℤ × String) := []
deriving Repr, DecidableEq

namespace ConfidenceScorer

def FS_PROXIMITY_SECS : ℤ := 30
def GIT_PROXIMITY_SECS : ℤ := 120
def TASK_PROXIMITY_SECS : ℤ := 300

def BASE : ℚ := 1/5
def BURST_BONUS : ℚ := 1/5
def FS_PROXIMITY_BONUS : ℚ := 1/5
def GIT_PROXIMITY_BONUS : ℚ := 1/5
def TASK_CONTEXT_BONUS : ℚ := 1/5

/-- `ConfidenceScorer.record_signal`: the `if/elif` routing of an event into
the matching recency window. -/
def record_signal (s : ConfidenceScorer) (now : ℤ) (event : WorkflowEvent) :
    ConfidenceScorer :=
  if event.source = "filesystem" ∨ event.event_type = EventType.FS_BATCH_MODIFIED then
    { s with recent_fs := s.recent_fs ++ [(now, event.id)] }
  else if event.source = "git" ∨ event.event_type = EventType.GIT_COMMIT then
    { s with recent_git := s.recent_git ++ [(now, event.id)] }
  else if event.source = "antigravity" ∧ strTruthy event.task_id = true then
    { s with recent_tasks := s.recent_tasks ++ [(now, event.task_id.getD "")] }
  else s

/-- `ConfidenceScorer._score_antigravity`: constant per event kind. -/
def score_antigravity (event : WorkflowEvent) : ℚ :=
  if event.event_type = EventType.AG_TASK_COMPLETED ∨
     event.event_type = EventType.AG_TASK_WALKTHROUGH then 1
  else if event.event_type = EventType.AG_TASK_CREATED ∨
          event.event_type = EventType.AG_TASK_PLAN_READY then 9/10
  else if event.event_type = EventType.AG_TASK_FAILED then 9/10
  else if event.event_type = EventType.AG_ARTIFACT_UNKNOWN then 3/10
  else 4/5

/-- `ConfidenceScorer._score_git`.  The `_evict` calls mutate the windows on
read, so the updated scorer is returned alongside the value. -/
def score_git (s : ConfidenceScorer) (now : ℤ) (event : WorkflowEvent) :
    ℚ × ConfidenceScorer :=
  let base : ℚ := 3/5
  let s1 := { s with recent_tasks := evict now TASK_PROXIMITY_SECS s.recent_tasks }
  if strTruthy event.task_id = true ∧
     (s1.recent_tasks.find? (fun en => some en.2 == event.task_id)).isSome then
    (min 1 (base + TASK_CONTEXT_BONUS), s1)
  else if s1.recent_tasks ≠ [] then
    (min 1 (base + 1/10), s1)
  else
    (min 1 base, s1)

/-- `ConfidenceScorer._score_copilot`: base 0.2 plus the four context
bonuses, capped at 1. -/
def score_copilot (s : ConfidenceScorer) (now : ℤ) (event : WorkflowEvent) :
    ℚ × ConfidenceScorer :=
  let s1 := { s with recent_fs := evict now FS_PROXIMITY_SECS s.recent_fs }
  let s2 := { s1 with recent_git := evict now GIT_PROXIMITY_SECS s1.recent_git }
  let s3 :=
    if strTruthy event.task_id = true then s2
    else { s2 with recent_tasks := evict now TASK_PROXIMITY_SECS s2.recent_tasks }
  let sc := BASE
    + (if event.burst_id.isSome then BURST_BONUS else 0)
    + (if s1.recent_fs ≠ [] then FS_PROXIMITY_BONUS else 0)
    + (if s2.recent_git ≠ [] then GIT_PROXIMITY_BONUS else 0)
    + (if strTruthy event.task_id = true then TASK_CONTEXT_BONUS
       else if s3.recent_tasks ≠ [] then TASK_CONTEXT_BONUS * (1/2) else 0)
  (min 1 sc, s3)

/-- `ConfidenceScorer._score_filesystem`: base 0.4 plus task and git
proximity bonuses (the source has no cap on this path; the maximum is 0.7). -/
def score_filesystem (s : ConfidenceScorer) (now : ℤ) :
    ℚ × ConfidenceScorer :=
  let s1 := { s with recent_tasks := evict now TASK_PROXIMITY_SECS s.recent_tasks }
  let s2 := { s1 with recent_git := evict now GIT_PROXIMITY_SECS s1.recent_git }
  let sc : ℚ := 2/5
    + (if s1.recent_tasks ≠ [] then 1/5 else 0)
    + (if s2.recent_git ≠ [] then 1/10 else 0)
  (sc, s2)

/-- `ConfidenceScorer.score`: dispatch on the event source; unknown sources
pass the preexisting confidence through unchanged. -/
def score (s : ConfidenceScorer) (now : ℤ) (event : WorkflowEvent) :
    ℚ × ConfidenceScorer :=
  if event.source = "antigravity" then (score_antigravity event, s)
  else if event.source = "git" then score_git s now event
  else if event.source = "copilot" then score_copilot s now event
  else if event.source = "filesystem" then score_filesystem s now
  else (event.confidence, s)

/-- `ConfidenceScorer.score_and_record`: set `event.confidence` from the
pre-record state, then record the mutated event as a signal. -/
def score_and_record (s : ConfidenceScorer) (now : ℤ) (event : WorkflowEvent) :
    ConfidenceScorer × WorkflowEvent :=
  let r := score s now event
  let event1 := { event with confidence := r.1 }
  (record_signal r.2 now event1, event1)

end ConfidenceScorer

-- ═══════════════════════════════════════════════════════════════
-- Temporal correlator (correlator.py `TemporalCorrelator`)
-- ═══════════════════════════════════════════════════════════════

/-- Four per-source sliding windows of `(monotonic_time, event)`. -/
structure TemporalCorrelator where
  task_commit_window : ℤ := 300
  cluster_window : ℤ := 180
  tasks : List (ℤ × WorkflowEvent) := []
  commits : List (ℤ × WorkflowEvent) := []
  fs_events : List (ℤ × WorkflowEvent) := []
  copilot_events : List (ℤ × WorkflowEvent) := []
deriving Repr, DecidableEq

namespace TemporalCorrelator

def MAX_EVENTS : Nat := 200

/-- Append to a window, then drop the oldest entry when the count cap is
exceeded (`if len(w) > MAX_EVENTS: w.popleft()`). -/
def pushWindow (w : List (ℤ × WorkflowEvent)) (entry : ℤ × WorkflowEvent) :
    List (ℤ × WorkflowEvent) :=
  let w1 := w ++ [entry]
  if MAX_EVENTS < w1.length then w1.drop 1 else w1

/-- `TemporalCorrelator.record`: route an event into the matching window;
anything else falls through untouched. -/
def record (c : TemporalCorrelator) (now : ℤ) (event : WorkflowEvent) :
    TemporalCorrelator :=
  if event.source = "antigravity" ∧ strTruthy event.task_id = true then
    { c with tasks := pushWindow c.tasks (now, event) }
  else if event.source = "git" then
    { c with commits := pushWindow c.commits (now, event) }
  else if event.source = "filesystem" then
    { c with fs_events := pushWindow c.fs_events (now, event) }
  else if event.source = "copilot" then
    { c with copilot_events := pushWindow c.copilot_events (now, event) }
  else c

/-- `TemporalCorrelator._link_confidence`. -/
def link_confidence (t : String) : ℚ :=
  if t = "task_match" then 1
  else if t = "file_overlap" then 4/5
  else if t = "time_proximity" then 1/2
  else 3/10

/-- Do the changed-file sets of a commit and a task event intersect
(`commit_files & task_files`)? -/
def filesOverlap (commit_files task_files : List FileChange) : Bool :=
  commit_files.any (fun f => task_files.any (fun g => f.path == g.path))

/-- Strategy A scan: most-recent-first search for an exact task-id match. -/
def findIdMatch (tasks : List (ℤ × WorkflowEvent)) (commit : WorkflowEvent) :
    Option (ℤ × WorkflowEvent) :=
  if strTruthy commit.task_id = true then
    tasks.reverse.find? (fun en => en.2.task_id == commit.task_id)
  else none

/-- Strategy B scan: most-recent-first search for a task event whose changed
files intersect the commit's. -/
def findFileOverlap (tasks : List (ℤ × WorkflowEvent)) (commit : WorkflowEvent) :
    Option (ℤ × WorkflowEvent) :=
  if listTruthy commit.files_changed = true then
    tasks.reverse.find? (fun en =>
      listTruthy en.2.files_changed &&
        filesOverlap (commit.files_changed.getD []) (en.2.files_changed.getD []))
  else none

/-- The `git.commit_linked_to_task` event minted once a best task is chosen. -/
def mkLinkedEvent (fresh_id : Nat) (commit best_task : WorkflowEvent)
    (best_type : String) : WorkflowEvent :=
  { id := fresh_id
    source := "git"
    event_type := EventType.GIT_COMMIT_LINKED
    task_id := best_task.task_id
    task_title := best_task.task_title
    git_commit_sha := commit.git_commit_sha
    git_branch := commit.git_branch
    correlation_type := some best_type
    correlated_events := some [commit.id, best_task.id]
    confidence := link_confidence best_type }

/-- The in-place annotation `_correlate_commit` applies to the commit. -/
def annotateCommit (commit best_task : WorkflowEvent) (best_type : String) :
    WorkflowEvent :=
  { commit with task_id := best_task.task_id
                task_title := best_task.task_title
                correlation_type := some best_type
                correlated_events := some [best_task.id] }

/-- `TemporalCorrelator._correlate_commit`: evict the task window, bail out
if it is empty, otherwise choose a best task by strategy A / B / C and return
the annotated commit together with the derived linked event. -/
def correlate_commit (c : TemporalCorrelator) (now : ℤ) (fresh_id : Nat)
    (commit : WorkflowEvent) :
    TemporalCorrelator × Option (WorkflowEvent × WorkflowEvent) :=
  let c1 := { c with tasks := evict now c.task_commit_window c.tasks }
  match c1.tasks.getLast? with
  | none => (c1, none)
  | some last =>
      match findIdMatch c1.tasks commit with
      | some t =>
          (c1, some (annotateCommit commit t.2 "task_match",
                     mkLinkedEvent fresh_id commit t.2 "task_match"))
      | none =>
          match findFileOverlap c1.tasks commit with
          | some t =>
              (c1, some (annotateCommit commit t.2 "file_overlap",
                         mkLinkedEvent fresh_id commit t.2 "file_overlap"))
          | none =>
              (c1, some (annotateCommit commit last.2 "time_proximity",
                         mkLinkedEvent fresh_id commit last.2 "time_proximity"))

/-- Evict every window to the given horizon (`_evict_all`). -/
def evict_all (c : TemporalCorrelator) (now max_age : ℤ) : TemporalCorrelator :=
  { c with tasks := evict now max_age c.tasks
           commits := evict now max_age c.commits
           fs_events := evict now max_age c.fs_events
           copilot_events := evict now max_age c.copilot_events }

/-- All events currently held, in window-scan order (tasks, commits,
filesystem, copilot; oldest first inside each). -/
def cluster_entries (c : TemporalCorrelator) : List WorkflowEvent :=
  (c.tasks ++ c.commits ++ c.fs_events ++ c.copilot_events).map (fun en => en.2)

/-- The distinct sources present, in first-appearance order (the Python
`set` is only read through `len` and membership). -/
def cluster_sources (c : TemporalCorrelator) : List String :=
  ((cluster_entries c).map (fun ev => ev.source)).dedup

/-- `TemporalCorrelator._check_cluster`: evict all windows to the cluster
horizon, require at least 3 distinct sources with the trigger's source among
them, and mint one `workflow.activity_clustered` event. -/
def check_cluster (c : TemporalCorrelator) (now : ℤ) (fresh_id : Nat)
    (trigger : WorkflowEvent) : TemporalCorrelator × Option WorkflowEvent :=
  let c1 := c.evict_all now c.cluster_window
  let srcs := cluster_sources c1
  let ids := (cluster_entries c1).map (fun ev => ev.id)
  if srcs.length < 3 then (c1, none)
  else if trigger.source ∉ srcs then (c1, none)
  else
    (c1, some { id := fresh_id
                source := "agent"
                event_type := EventType.WORKFLOW_ACTIVITY_CLUSTERED
                correlated_events := some (ids.take 50)
                correlation_type := some "temporal_cluster"
                confidence := 7/10 })

/-- `TemporalCorrelator.correlate`: commit linking (for `git.commit` events)
followed by cluster detection.  `fresh_id` and `fresh_id + 1` model the two
uuids the call may mint. -/
def correlate (c : TemporalCorrelator) (now : ℤ) (fresh_id : Nat)
    (event : WorkflowEvent) :
    TemporalCorrelator × List WorkflowEvent × WorkflowEvent :=
  if event.event_type = EventType.GIT_COMMIT then
    match correlate_commit c now fresh_id event with
    | (c1, some (commit1, linked)) =>
        let r := check_cluster c1 now (fresh_id + 1) commit1
        (r.1, [linked] ++ r.2.toList, commit1)
    | (c1, none) =>
        let r := check_cluster c1 now (fresh_id + 1) event
        (r.1, r.2.toList, event)
  else
    let r := check_cluster c now (fresh_id + 1) event
    (r.1, r.2.toList, event)

end TemporalCorrelator

-- Scenario constants used by the claim theorems and witnesses.

def fbStep1 := (({ } : FileBurstDetector).observe 0 7 "a.py")
def fbStep2 := fbStep1.1.observe 1 8 "b.py"
def fbStep3 := fbStep2.1.observe 2 9 "c.py"

/-- The event fired by the third observation of the filesystem scenario. -/
def fbFired : WorkflowEvent :=
  { id := 9
    source := "filesystem"
    event_type := EventType.FS_BATCH_MODIFIED
    files_changed := some [
      { path := "a.py", change_type := "modified" },
      { path := "b.py", change_type := "modified" },
      { path := "c.py", change_type := "modified" }]
    confidence := 2/5 }

/-- A completion already carrying a burst id. -/
def c4BurstEvent : WorkflowEvent :=
  { mkCompletion 5 none none with burst_id := some 3 }

/-- The same completion with its own task id. -/
def c4FullEvent : WorkflowEvent :=
  { mkCompletion 5 none none with burst_id := some 3, task_id := some "T-1" }

/-- A completed task event touching `x.py` under id T-1. -/
def c2TaskA : WorkflowEvent :=
  { id := 11
    source := "antigravity"
    event_type := EventType.AG_TASK_COMPLETED
    task_id := some "T-1"
    task_title := some "task one"
    files_changed := some [{ path := "x.py", change_type := "modified" }] }

/-- A completed task event touching `y.py` under id T-2. -/
def c2TaskB : WorkflowEvent :=
  { id := 12
    source := "antigravity"
    event_type := EventType.AG_TASK_COMPLETED
    task_id := some "T-2"
    task_title := some "task two"
    files_changed := some [{ path := "y.py", change_type := "modified" }] }

/-- A commit that id-matches T-2 while its files overlap T-1's. -/
def c2Commit : WorkflowEvent :=
  { id := 13
    source := "git"
    event_type := EventType.GIT_COMMIT
    task_id := some "T-2"
    files_changed := some [{ path := "x.py", change_type := "modified" }]
    git_commit_sha := some "abc123f" }

def c2State : TemporalCorrelator :=
  { tasks := [(0, c2TaskA), (1, c2TaskB)] }

/-- A state holding one task, one commit and one filesystem event: three
distinct sources inside the cluster horizon. -/
def c5Task : WorkflowEvent :=
  { id := 21, source := "antigravity",
    event_type := EventType.AG_TASK_COMPLETED, task_id := some "T-9" }

def c5Commit : WorkflowEvent :=
  { id := 22, source := "git", event_type := EventType.GIT_COMMIT }

def c5Fs : WorkflowEvent :=
  { id := 23, source := "filesystem", event_type := EventType.FS_BATCH_MODIFIED }

def c5State : TemporalCorrelator :=
  { tasks := [(0, c5Task)], commits := [(0, c5Commit)], fs_events := [(0, c5Fs)] }

/-- The same state with only two distinct sources present. -/
def c5TwoState : TemporalCorrelator :=
  { tasks := [(0, c5Task)], commits := [(0, c5Commit)] }

/-- A derived cluster event minted with source `agent`. -/
def c10Cluster : WorkflowEvent :=
  { id := 31, source := "agent",
    event_type := EventType.WORKFLOW_ACTIVITY_CLUSTERED, confidence := 7/10 }

/-- A planning event carrying no task id. -/
def c10Task : WorkflowEvent :=
  { id := 32, source := "antigravity", event_type := EventType.AG_TASK_CREATED }

-- ═══════════════════════════════════════════════════════════════
-- Claim theorems
-- ═══════════════════════════════════════════════════════════════

/-- Dispatch: a copilot-source event is scored by `score_copilot`. -/
theorem ConfidenceScorer.score_copilot_dispatch (s : ConfidenceScorer) (now : ℤ)
    (e : WorkflowEvent) (h : e.source = "copilot") :
    ConfidenceScorer.score s now e = ConfidenceScorer.score_copilot s now e := by
  unfold ConfidenceScorer.score; rw [h]; simp only [String.reduceEq, reduceIte]

/-- Dispatch: a git-source event is scored by `score_git`. -/
theorem ConfidenceScorer.score_git_dispatch (s : ConfidenceScorer) (now : ℤ)
    (e : WorkflowEvent) (h : e.source = "git") :
    ConfidenceScorer.score s now e = ConfidenceScorer.score_git s now e := by
  unfold ConfidenceScorer.score; rw [h]; simp only [String.reduceEq, reduceIte]

/-- Dispatch: a filesystem-source event is scored by `score_filesystem`. -/
theorem ConfidenceScorer.score_filesystem_dispatch (s : ConfidenceScorer) (now : ℤ)
    (e : WorkflowEvent) (h : e.source = "filesystem") :
    ConfidenceScorer.score s now e = ConfidenceScorer.score_filesystem s now := by
  unfold ConfidenceScorer.score; rw [h]; simp only [String.reduceEq, reduceIte]

/-- Dispatch: an antigravity-source event is scored by `score_antigravity`. -/
theorem ConfidenceScorer.score_antigravity_dispatch (s : ConfidenceScorer) (now : ℤ)
    (e : WorkflowEvent) (h : e.source = "antigravity") :
    ConfidenceScorer.score s now e = (ConfidenceScorer.score_antigravity e, s) := by
  unfold ConfidenceScorer.score; rw [h]; simp only [String.reduceEq, reduceIte]

/-- C6: `FileBurstDetector.observe` fires exactly when the entry count of the
trailing window (after appending the current observation and evicting entries
strictly older than the window) reaches the threshold; on firing it returns
one filesystem-batch event carrying every queued path with confidence 0.4 and
clears the queue entirely (so entries consumed by a fire are gone), and on
every other call it returns nothing and just keeps the evicted queue. -/
theorem file_burst_observe_spec (d : FileBurstDetector) (now : ℤ) (i : Nat) (p : String) :
    ((d.observe now i p).2.isSome = true ↔ d.threshold ≤ (d.post_recent now p).length)
    ∧ (∀ ev, (d.observe now i p).2 = some ev →
        ev.event_type = EventType.FS_BATCH_MODIFIED ∧
        ev.confidence = 2/5 ∧
        ev.files_changed = some ((d.post_recent now p).map (fun en =>
          ({ path := en.2, change_type := "modified" } : FileChange))) ∧
        (d.observe now i p).1.recent = [])
    ∧ ((d.observe now i p).2 = none →
        (d.observe now i p).1.recent = d.post_recent now p ∧
        (d.post_recent now p).length < d.threshold) := by
  by_cases h : d.threshold ≤ (d.post_recent now p).length
  · refine ⟨by simp [FileBurstDetector.observe, h], ?_, ?_⟩
    · intro ev hev
      simp [FileBurstDetector.observe, h] at hev
      subst hev
      exact ⟨rfl, rfl, rfl, by simp [FileBurstDetector.observe, h]⟩
    · intro hev
      simp [FileBurstDetector.observe, h] at hev
  · refine ⟨by simp [FileBurstDetector.observe, h], ?_, ?_⟩
    · intro ev hev
      simp [FileBurstDetector.observe, h] at hev
    · intro _
      exact ⟨by simp [FileBurstDetector.observe, h], by omega⟩

/-- C6 witness: the third of three rapid observations fires one batch event
covering all three paths with confidence 0.4 and empties the queue. -/
theorem file_burst_observe_spec_witness :
    fbStep3.2.isSome = true ∧
    fbFired.event_type = EventType.FS_BATCH_MODIFIED ∧
    fbFired.confidence = 2/5 ∧
    fbFired.files_changed = some ((fbStep2.1.post_recent 2 "c.py").map (fun en =>
      ({ path := en.2, change_type := "modified" } : FileChange))) ∧
    fbStep3.1.recent = [] :=
  ⟨(file_burst_observe_spec fbStep2.1 2 9 "c.py").1.mpr (by decide),
   (file_burst_observe_spec fbStep2.1 2 9 "c.py").2.1 fbFired (by rfl)⟩

/-- C1: after every `CopilotBurstDetector.observe` call, `is_in_burst` holds
iff the current window's token total reaches the token threshold or its entry
count reaches the count threshold; an Idle-to-InBurst transition emits
exactly one burst-start event, an InBurst-to-Idle transition exactly one
burst-end event, and a call causing no transition emits nothing. -/
theorem copilot_observe_spec (d : CopilotBurstDetector) (now : ℤ) (e : WorkflowEvent) :
    ((d.observe now e).1.is_in_burst = true ↔ d.burst_condition (d.post_window now e))
    ∧ (d.is_in_burst = false → d.burst_condition (d.post_window now e) →
        ∃ ev, (d.observe now e).2.1 = [ev] ∧
          ev.event_type = EventType.COPILOT_BURST_START ∧ ev.confidence = 2/5)
    ∧ (d.is_in_burst = true → ¬ d.burst_condition (d.post_window now e) →
        ∃ ev, (d.observe now e).2.1 = [ev] ∧
          ev.event_type = EventType.COPILOT_BURST_END ∧ ev.confidence = 2/5)
    ∧ ((d.is_in_burst = true ↔ d.burst_condition (d.post_window now e)) →
        (d.observe now e).2.1 = []) := by
  by_cases hc : d.burst_condition (d.post_window now e) <;>
    cases hb : d.active_burst_id <;>
    simp [CopilotBurstDetector.observe, CopilotBurstDetector.is_in_burst, hc, hb]

/-- C1 witness: with count threshold 3, the third 10+10-token completion
flips `is_in_burst` on and emits exactly one burst-start event. -/
theorem copilot_observe_spec_witness :
    copilotScenarioStep3.1.is_in_burst = true ∧
    (∃ ev, copilotScenarioStep3.2.1 = [ev] ∧
      ev.event_type = EventType.COPILOT_BURST_START ∧ ev.confidence = 2/5) :=
  ⟨(copilot_observe_spec copilotScenarioStep2.1 2 (mkCompletion 102 (some 10) (some 10))).1.mpr
      (by decide),
   (copilot_observe_spec copilotScenarioStep2.1 2 (mkCompletion 102 (some 10) (some 10))).2.1
      (by decide) (by decide)⟩

/-- C7 counterexample: in the claimed scenario (3 completions of 10+10
tokens, count threshold 3, token threshold effectively disabled) the third
observation starts a burst, and an immediate `flush` returns a burst-end
event — but the running token total and entry count are NOT reset: the
source's `flush` clears only the active burst id and the start time. -/
theorem copilot_flush_counterexample :
    copilotScenarioStep3.1.is_in_burst = true ∧
    (copilotScenarioStep3.1.flush 2).2.isSome = true ∧
    (copilotScenarioStep3.1.flush 2).1.is_in_burst = false ∧
    ¬ ((copilotScenarioStep3.1.flush 2).1.burst_token_total = 0 ∧
       (copilotScenarioStep3.1.flush 2).1.burst_entry_count = 0) := by
  refine ⟨rfl, rfl, rfl, ?_⟩
  intro h
  exact absurd h.1 (by decide)

/-- C7 (amended): `flush` force-ends an active burst unconditionally,
returning its burst-end event (or nothing when idle); afterwards
`is_in_burst` is false and the burst id and start time are cleared, while
the running token total and entry count keep their last values (they are
reset only by an `observe` transition out of a burst).  In the 3-completion
scenario the burst starts on the third event and an immediate `flush`
yields a burst-end event and clears the burst id and start time. -/
theorem copilot_flush_spec (d : CopilotBurstDetector) (now : ℤ) :
    (d.is_in_burst = false → d.flush now = (d, none))
    ∧ (d.is_in_burst = true →
        ∃ ev, (d.flush now).2 = some ev ∧
          ev.event_type = EventType.COPILOT_BURST_END ∧
          ev.burst_id = d.active_burst_id ∧
          ev.burst_token_total = some d.burst_token_total ∧
          ev.burst_entry_count = some d.burst_entry_count ∧
          (d.flush now).1.is_in_burst = false ∧
          (d.flush now).1.active_burst_id = none ∧
          (d.flush now).1.burst_start_time = none ∧
          (d.flush now).1.burst_token_total = d.burst_token_total ∧
          (d.flush now).1.burst_entry_count = d.burst_entry_count)
    ∧ (copilotScenarioStep1.2.1 = [] ∧ copilotScenarioStep2.2.1 = [] ∧
        copilotScenarioStep3.2.1.length = 1 ∧
        (copilotScenarioStep3.2.1.map (fun ev => ev.event_type)) =
          [EventType.COPILOT_BURST_START] ∧
        ((copilotScenarioStep3.1.flush 2).2.map (fun ev => ev.event_type)) =
          some EventType.COPILOT_BURST_END ∧
        (copilotScenarioStep3.1.flush 2).1.is_in_burst = false) := by
  refine ⟨?_, ?_, rfl, rfl, rfl, rfl, rfl, rfl⟩
  · intro h
    cases hb : d.active_burst_id with
    | none => simp [CopilotBurstDetector.flush, hb]
    | some b => simp [CopilotBurstDetector.is_in_burst, hb] at h
  · intro h
    cases hb : d.active_burst_id with
    | none => simp [CopilotBurstDetector.is_in_burst, hb] at h
    | some b =>
        refine ⟨{ id := d.fresh, source := "copilot",
                  event_type := EventType.COPILOT_BURST_END,
                  burst_id := some b,
                  burst_token_total := some d.burst_token_total,
                  burst_duration_secs := some (now - d.burst_start_time.getD now),
                  burst_entry_count := some d.burst_entry_count,
                  confidence := 2/5 },
                ?_, rfl, by simp [hb], rfl, rfl, ?_, ?_, ?_, ?_, ?_⟩ <;>
          simp [CopilotBurstDetector.flush, CopilotBurstDetector.is_in_burst, hb]

/-- C7 witness: the amended flush contract applied to the scenario detector
in its active-burst state. -/
theorem copilot_flush_spec_witness :
    copilotScenarioStep3.1.is_in_burst = true ∧
    (∃ ev, (copilotScenarioStep3.1.flush 2).2 = some ev ∧
      ev.event_type = EventType.COPILOT_BURST_END ∧
      ev.burst_id = copilotScenarioStep3.1.active_burst_id ∧
      ev.burst_token_total = some copilotScenarioStep3.1.burst_token_total ∧
      ev.burst_entry_count = some copilotScenarioStep3.1.burst_entry_count ∧
      (copilotScenarioStep3.1.flush 2).1.is_in_burst = false ∧
      (copilotScenarioStep3.1.flush 2).1.active_burst_id = none ∧
      (copilotScenarioStep3.1.flush 2).1.burst_start_time = none ∧
      (copilotScenarioStep3.1.flush 2).1.burst_token_total =
        copilotScenarioStep3.1.burst_token_total ∧
      (copilotScenarioStep3.1.flush 2).1.burst_entry_count =
        copilotScenarioStep3.1.burst_entry_count) :=
  ⟨rfl, (copilot_flush_spec copilotScenarioStep3.1 2).2.1 rfl⟩

/-- C9: missing optional fields default silently.  A completion whose token
counts are absent drives the burst detector exactly as if both counts were
zero (same resulting state, same emitted events), and a commit with no
file-change list is handled by the correlator exactly as a commit with an
empty list: the file-overlap strategy sees no overlap, and both the derived
link event and the annotation applied to the commit agree.  Every embedded
core operation is a total function, so no input combination of absent
optional fields can raise. -/
theorem optional_defaults_spec (d : CopilotBurstDetector) (now : ℤ)
    (e : WorkflowEvent) (c : TemporalCorrelator) (m : ℤ) (i : Nat)
    (commit : WorkflowEvent) :
    ((d.observe now { e with tokens_prompt := none, tokens_completion := none }).1 =
      (d.observe now { e with tokens_prompt := some 0, tokens_completion := some 0 }).1)
    ∧ ((d.observe now { e with tokens_prompt := none, tokens_completion := none }).2.1 =
        (d.observe now { e with tokens_prompt := some 0, tokens_completion := some 0 }).2.1)
    ∧ ((c.correlate_commit m i { commit with files_changed := none }).1 =
        (c.correlate_commit m i { commit with files_changed := some [] }).1)
    ∧ ((c.correlate_commit m i { commit with files_changed := none }).2.map
          (fun pr => pr.2) =
        (c.correlate_commit m i { commit with files_changed := some [] }).2.map
          (fun pr => pr.2))
    ∧ ((c.correlate_commit m i { commit with files_changed := none }).2.map
          (fun pr => pr.1.correlation_type) =
        (c.correlate_commit m i { commit with files_changed := some [] }).2.map
          (fun pr => pr.1.correlation_type))
    ∧ ((c.correlate_commit m i { commit with files_changed := none }).2.map
          (fun pr => pr.1.task_id) =
        (c.correlate_commit m i { commit with files_changed := some [] }).2.map
          (fun pr => pr.1.task_id)) := by
  have hpw : d.post_window now { e with tokens_prompt := none, tokens_completion := none } =
      d.post_window now { e with tokens_prompt := some 0, tokens_completion := some 0 } := rfl
  have hobs :
      (d.observe now { e with tokens_prompt := none, tokens_completion := none }).1 =
        (d.observe now { e with tokens_prompt := some 0, tokens_completion := some 0 }).1 ∧
      (d.observe now { e with tokens_prompt := none, tokens_completion := none }).2.1 =
        (d.observe now { e with tokens_prompt := some 0, tokens_completion := some 0 }).2.1 := by
    by_cases hc : d.burst_condition
        (d.post_window now { e with tokens_prompt := some 0, tokens_completion := some 0 }) <;>
      cases hb : d.active_burst_id <;>
      constructor <;>
      simp [CopilotBurstDetector.observe, hpw, hc, hb]
  have hfm : TemporalCorrelator.findFileOverlap
        (evict m c.task_commit_window c.tasks) { commit with files_changed := none } =
      TemporalCorrelator.findFileOverlap
        (evict m c.task_commit_window c.tasks) { commit with files_changed := some [] } := by
    simp [TemporalCorrelator.findFileOverlap, listTruthy]
  have hid : TemporalCorrelator.findIdMatch
        (evict m c.task_commit_window c.tasks) { commit with files_changed := none } =
      TemporalCorrelator.findIdMatch
        (evict m c.task_commit_window c.tasks) { commit with files_changed := some [] } := rfl
  refine ⟨hobs.1, hobs.2, ?_, ?_, ?_, ?_⟩ <;>
    · unfold TemporalCorrelator.correlate_commit
      simp only [hid, hfm]
      cases hl : (evict m c.task_commit_window c.tasks).getLast? <;>
        cases hi : TemporalCorrelator.findIdMatch
          (evict m c.task_commit_window c.tasks) { commit with files_changed := some [] } <;>
        cases hf : TemporalCorrelator.findFileOverlap
          (evict m c.task_commit_window c.tasks) { commit with files_changed := some [] } <;>
        simp [TemporalCorrelator.annotateCommit, TemporalCorrelator.mkLinkedEvent]

/-- C3 counterexample: `score` is NOT in [0,1] for every event — for a
source outside the four scored ones (here a derived `agent` event) the
preexisting confidence is passed through unclipped, so an event carrying
confidence 2 scores 2. -/
theorem score_bounds_counterexample :
    (ConfidenceScorer.score { } 0
      { source := "agent", event_type := EventType.WORKFLOW_ACTIVITY_CLUSTERED,
        confidence := 2 }).1 = 2 ∧ ¬ ((2:ℚ) ≤ 1) := by
  constructor
  · unfold ConfidenceScorer.score
    simp only [String.reduceEq, reduceIte]
  · norm_num

/-- C3 (amended): for every event whose preexisting confidence lies in
[0,1] — which the data model guarantees for pipeline events — and every
recency-window state, `score` returns a value in [0,1]; in particular no
amount of recorded signals can push a score above 1 (the four per-source
rules are bounded independently of the window state, and the pass-through
branch returns the preexisting confidence unchanged). -/
theorem score_bounds (s : ConfidenceScorer) (now : ℤ) (e : WorkflowEvent)
    (h0 : 0 ≤ e.confidence) (h1 : e.confidence ≤ 1) :
    0 ≤ (ConfidenceScorer.score s now e).1 ∧ (ConfidenceScorer.score s now e).1 ≤ 1 := by
  unfold ConfidenceScorer.score ConfidenceScorer.score_antigravity
    ConfidenceScorer.score_git ConfidenceScorer.score_copilot
    ConfidenceScorer.score_filesystem
  simp only [ConfidenceScorer.BASE, ConfidenceScorer.BURST_BONUS,
    ConfidenceScorer.FS_PROXIMITY_BONUS, ConfidenceScorer.GIT_PROXIMITY_BONUS,
    ConfidenceScorer.TASK_CONTEXT_BONUS]
  split_ifs <;>
    constructor <;>
    simp_all <;>
    norm_num [min_le_iff, le_min_iff]

/-- C3 witness: a copilot completion inside a burst, scored against a state
holding a filesystem signal and a git signal, stays within [0,1]. -/
theorem score_bounds_witness :
    0 ≤ (mkCompletion 5 (some 10) (some 10)).confidence ∧
    (mkCompletion 5 (some 10) (some 10)).confidence ≤ 1 ∧
    (0 ≤ (ConfidenceScorer.score { recent_fs := [(0, 1)], recent_git := [(0, 2)] } 0
            (mkCompletion 5 (some 10) (some 10))).1 ∧
      (ConfidenceScorer.score { recent_fs := [(0, 1)], recent_git := [(0, 2)] } 0
          (mkCompletion 5 (some 10) (some 10))).1 ≤ 1) :=
  ⟨by norm_num [mkCompletion], by norm_num [mkCompletion],
   score_bounds { recent_fs := [(0, 1)], recent_git := [(0, 2)] } 0
     (mkCompletion 5 (some 10) (some 10)) (by norm_num [mkCompletion])
     (by norm_num [mkCompletion])⟩

/-- C4: the ai-assist rule is base 0.2, +0.2 for an existing burst id, +0.2
for a non-empty filesystem recency window, +0.2 for a non-empty commit
recency window, and +0.2 for an own task id (else +0.1 for a merely
non-empty task window), capped at 1; a completion with a burst id scored
against empty windows yields 0.4, and the same event scored after a
filesystem signal and a commit signal while carrying its own task id
yields 1.0. -/
theorem copilot_rule_spec (s : ConfidenceScorer) (now : ℤ) (e : WorkflowEvent)
    (h : e.source = "copilot") :
    ((ConfidenceScorer.score s now e).1 =
      min 1 (1/5
        + (if e.burst_id.isSome then 1/5 else 0)
        + (if evict now ConfidenceScorer.FS_PROXIMITY_SECS s.recent_fs ≠ [] then 1/5 else 0)
        + (if evict now ConfidenceScorer.GIT_PROXIMITY_SECS s.recent_git ≠ [] then 1/5 else 0)
        + (if strTruthy e.task_id = true then 1/5
           else if evict now ConfidenceScorer.TASK_PROXIMITY_SECS s.recent_tasks ≠ []
                then 1/10 else 0)))
    ∧ (ConfidenceScorer.score { } 0 c4BurstEvent).1 = 2/5
    ∧ (ConfidenceScorer.score { recent_fs := [(0, 1)], recent_git := [(0, 2)] } 0
        c4FullEvent).1 = 1 := by
  refine ⟨?_, ?_, ?_⟩
  · rw [ConfidenceScorer.score_copilot_dispatch s now e h]
    unfold ConfidenceScorer.score_copilot
    simp only [ConfidenceScorer.BASE, ConfidenceScorer.BURST_BONUS,
      ConfidenceScorer.FS_PROXIMITY_BONUS, ConfidenceScorer.GIT_PROXIMITY_BONUS,
      ConfidenceScorer.TASK_CONTEXT_BONUS]
    split_ifs <;> norm_num
  · rw [ConfidenceScorer.score_copilot_dispatch _ _ _ rfl]
    norm_num [ConfidenceScorer.score_copilot, ConfidenceScorer.BASE,
      ConfidenceScorer.BURST_BONUS, c4BurstEvent, mkCompletion, evict, strTruthy]
  · rw [ConfidenceScorer.score_copilot_dispatch _ _ _ rfl]
    norm_num [ConfidenceScorer.score_copilot, ConfidenceScorer.BASE,
      ConfidenceScorer.BURST_BONUS, ConfidenceScorer.FS_PROXIMITY_BONUS,
      ConfidenceScorer.GIT_PROXIMITY_BONUS, ConfidenceScorer.TASK_CONTEXT_BONUS,
      c4FullEvent, mkCompletion, evict, ConfidenceScorer.FS_PROXIMITY_SECS,
      ConfidenceScorer.GIT_PROXIMITY_SECS, strTruthy, String.reduceEq]
    rw [if_neg (show ¬("T-1" = "") by decide)]
    norm_num

/-- C4 witness: the rule instantiated at the burst-only scenario event with
empty windows indeed evaluates to 0.4. -/
theorem copilot_rule_spec_witness :
    c4BurstEvent.source = "copilot" ∧
    (ConfidenceScorer.score { } 0 c4BurstEvent).1 = 2/5 :=
  ⟨rfl, (copilot_rule_spec { } 0 c4BurstEvent rfl).2.1⟩

/-- Recording any non-antigravity event leaves the task window unchanged. -/
theorem ConfidenceScorer.record_signal_tasks (s : ConfidenceScorer) (now : ℤ)
    (e : WorkflowEvent) (h : e.source ≠ "antigravity") :
    (ConfidenceScorer.record_signal s now e).recent_tasks = s.recent_tasks := by
  unfold ConfidenceScorer.record_signal
  split_ifs with h1 h2 h3
  · rfl
  · rfl
  · exact absurd h3.1 h
  · rfl

/-- Recording a filesystem-source event only appends to the fs window. -/
theorem ConfidenceScorer.record_signal_filesystem (s : ConfidenceScorer) (now : ℤ)
    (e : WorkflowEvent) (h : e.source = "filesystem") :
    ConfidenceScorer.record_signal s now e =
      { s with recent_fs := s.recent_fs ++ [(now, e.id)] } := by
  unfold ConfidenceScorer.record_signal
  rw [if_pos (Or.inl h)]

/-- Recording a copilot-source event whose kind is neither the
filesystem-batch kind nor the commit kind is a no-op. -/
theorem ConfidenceScorer.record_signal_copilot_noop (s : ConfidenceScorer) (now : ℤ)
    (e : WorkflowEvent) (hs : e.source = "copilot")
    (h1 : e.event_type ≠ EventType.FS_BATCH_MODIFIED)
    (h2 : e.event_type ≠ EventType.GIT_COMMIT) :
    ConfidenceScorer.record_signal s now e = s := by
  unfold ConfidenceScorer.record_signal
  split_ifs with g1 g2 g3
  · rcases g1 with g | g
    · rw [hs] at g; exact absurd g (by decide)
    · exact absurd g h1
  · rcases g2 with g | g
    · rw [hs] at g; exact absurd g (by decide)
    · exact absurd g h2
  · have g := g3.1; rw [hs] at g; exact absurd g (by decide)
  · rfl

/-- An event from none of the four scored sources keeps its preexisting
confidence. -/
theorem ConfidenceScorer.score_default (s : ConfidenceScorer) (now : ℤ)
    (e : WorkflowEvent) (h1 : e.source ≠ "antigravity") (h2 : e.source ≠ "git")
    (h3 : e.source ≠ "copilot") (h4 : e.source ≠ "filesystem") :
    ConfidenceScorer.score s now e = (e.confidence, s) := by
  unfold ConfidenceScorer.score
  rw [if_neg h1, if_neg h2, if_neg h3, if_neg h4]

/-- The git rule's value depends only on the task window. -/
theorem ConfidenceScorer.score_git_val (s t : ConfidenceScorer) (now : ℤ)
    (e : WorkflowEvent) (h : t.recent_tasks = s.recent_tasks) :
    (ConfidenceScorer.score_git t now e).1 = (ConfidenceScorer.score_git s now e).1 := by
  unfold ConfidenceScorer.score_git
  simp only [h]
  split_ifs <;> rfl

/-- The filesystem rule's value depends only on the task and git windows. -/
theorem ConfidenceScorer.score_filesystem_val (s t : ConfidenceScorer) (now : ℤ)
    (h1 : t.recent_tasks = s.recent_tasks) (h2 : t.recent_git = s.recent_git) :
    (ConfidenceScorer.score_filesystem t now).1 =
      (ConfidenceScorer.score_filesystem s now).1 := by
  unfold ConfidenceScorer.score_filesystem
  simp only [h1, h2]

/-- C8: `score_and_record` assigns the confidence computed on the
recency-window state from before the event is recorded, then records the
(identically-mutated) event and returns it; moreover scoring the event after
recording it would yield the same value for every event whose source/kind
combination routes its own entry into a window its rule never reads — so the
assigned confidence never includes a bonus derived from the event's own
window entry. -/
theorem score_and_record_spec (s : ConfidenceScorer) (now : ℤ) (e : WorkflowEvent) :
    ((ConfidenceScorer.score_and_record s now e).2 =
      { e with confidence := (ConfidenceScorer.score s now e).1 })
    ∧ ((ConfidenceScorer.score_and_record s now e).1 =
        ConfidenceScorer.record_signal (ConfidenceScorer.score s now e).2 now
          { e with confidence := (ConfidenceScorer.score s now e).1 })
    ∧ (¬ (e.source = "copilot" ∧ (e.event_type = EventType.FS_BATCH_MODIFIED ∨
            e.event_type = EventType.GIT_COMMIT)) →
        (ConfidenceScorer.score (ConfidenceScorer.record_signal s now e) now e).1 =
          (ConfidenceScorer.score s now e).1) := by
  refine ⟨rfl, rfl, ?_⟩
  intro hx
  by_cases h1 : e.source = "antigravity"
  · rw [ConfidenceScorer.score_antigravity_dispatch _ _ _ h1,
        ConfidenceScorer.score_antigravity_dispatch _ _ _ h1]
  · by_cases h2 : e.source = "git"
    · rw [ConfidenceScorer.score_git_dispatch _ _ _ h2,
          ConfidenceScorer.score_git_dispatch _ _ _ h2]
      exact ConfidenceScorer.score_git_val s _ now e
        (ConfidenceScorer.record_signal_tasks s now e h1)
    · by_cases h3 : e.source = "copilot"
      · rw [ConfidenceScorer.record_signal_copilot_noop s now e h3
          (fun hh => hx ⟨h3, Or.inl hh⟩) (fun hh => hx ⟨h3, Or.inr hh⟩)]
      · by_cases h4 : e.source = "filesystem"
        · rw [ConfidenceScorer.score_filesystem_dispatch _ _ _ h4,
              ConfidenceScorer.score_filesystem_dispatch _ _ _ h4,
              ConfidenceScorer.record_signal_filesystem s now e h4]
          exact ConfidenceScorer.score_filesystem_val s _ now rfl rfl
        · rw [ConfidenceScorer.score_default _ _ _ h1 h2 h3 h4,
              ConfidenceScorer.score_default _ _ _ h1 h2 h3 h4]

/-- C8 witness: a completion event scored-and-recorded against empty windows
receives the pre-record score, and recording it first would not change the
score it receives. -/
theorem score_and_record_spec_witness :
    ((ConfidenceScorer.score_and_record { } 0 (mkCompletion 5 (some 1) none)).2 =
      { mkCompletion 5 (some 1) none with
        confidence := (ConfidenceScorer.score { } 0 (mkCompletion 5 (some 1) none)).1 })
    ∧ ((ConfidenceScorer.score
          (ConfidenceScorer.record_signal { } 0 (mkCompletion 5 (some 1) none)) 0
          (mkCompletion 5 (some 1) none)).1 =
        (ConfidenceScorer.score { } 0 (mkCompletion 5 (some 1) none)).1) :=
  ⟨(score_and_record_spec { } 0 (mkCompletion 5 (some 1) none)).1,
   (score_and_record_spec { } 0 (mkCompletion 5 (some 1) none)).2.2 (by decide)⟩

/-- C2: commit-to-task linking first evicts the task window to its horizon
and returns nothing when the evicted window is empty; otherwise exact
task-id match wins (confidence 1.0) over changed-file overlap (0.8) over
time proximity (0.5, which unconditionally takes the most recent task), and
a task-id match is taken even when a file overlap with a different task
exists. -/
theorem correlate_commit_spec (c : TemporalCorrelator) (now : ℤ) (i : Nat)
    (commit : WorkflowEvent) :
    ((c.correlate_commit now i commit).1 =
      { c with tasks := evict now c.task_commit_window c.tasks })
    ∧ (evict now c.task_commit_window c.tasks = [] →
        (c.correlate_commit now i commit).2 = none)
    ∧ (∀ t, TemporalCorrelator.findIdMatch
          (evict now c.task_commit_window c.tasks) commit = some t →
        (c.correlate_commit now i commit).2 =
          some (TemporalCorrelator.annotateCommit commit t.2 "task_match",
                TemporalCorrelator.mkLinkedEvent i commit t.2 "task_match") ∧
        (TemporalCorrelator.mkLinkedEvent i commit t.2 "task_match").confidence = 1)
    ∧ (TemporalCorrelator.findIdMatch
          (evict now c.task_commit_window c.tasks) commit = none →
       ∀ t, TemporalCorrelator.findFileOverlap
          (evict now c.task_commit_window c.tasks) commit = some t →
        (c.correlate_commit now i commit).2 =
          some (TemporalCorrelator.annotateCommit commit t.2 "file_overlap",
                TemporalCorrelator.mkLinkedEvent i commit t.2 "file_overlap") ∧
        (TemporalCorrelator.mkLinkedEvent i commit t.2 "file_overlap").confidence = 4/5)
    ∧ (TemporalCorrelator.findIdMatch
          (evict now c.task_commit_window c.tasks) commit = none →
       TemporalCorrelator.findFileOverlap
          (evict now c.task_commit_window c.tasks) commit = none →
       ∀ l, (evict now c.task_commit_window c.tasks).getLast? = some l →
        (c.correlate_commit now i commit).2 =
          some (TemporalCorrelator.annotateCommit commit l.2 "time_proximity",
                TemporalCorrelator.mkLinkedEvent i commit l.2 "time_proximity") ∧
        (TemporalCorrelator.mkLinkedEvent i commit l.2 "time_proximity").confidence = 1/2) := by
  have hfid : ∀ t, TemporalCorrelator.findIdMatch
      (evict now c.task_commit_window c.tasks) commit = some t →
      (evict now c.task_commit_window c.tasks).getLast?.isSome = true := by
    intro t ht
    rw [List.getLast?_isSome]
    intro hnil
    rw [TemporalCorrelator.findIdMatch, hnil] at ht
    by_cases hb : strTruthy commit.task_id = true <;> simp [hb] at ht
  have hfov : ∀ t, TemporalCorrelator.findFileOverlap
      (evict now c.task_commit_window c.tasks) commit = some t →
      (evict now c.task_commit_window c.tasks).getLast?.isSome = true := by
    intro t ht
    rw [List.getLast?_isSome]
    intro hnil
    rw [TemporalCorrelator.findFileOverlap, hnil] at ht
    by_cases hb : listTruthy commit.files_changed = true <;> simp [hb] at ht
  unfold TemporalCorrelator.correlate_commit
  dsimp only
  refine ⟨?_, ?_, ?_, ?_, ?_⟩
  · cases hl : (evict now c.task_commit_window c.tasks).getLast? <;>
      cases hi : TemporalCorrelator.findIdMatch
        (evict now c.task_commit_window c.tasks) commit <;>
      cases hf : TemporalCorrelator.findFileOverlap
        (evict now c.task_commit_window c.tasks) commit <;>
      rfl
  · intro hnil
    rw [List.getLast?_eq_none_iff.mpr hnil]
  · intro t ht
    have hsome := hfid t ht
    rw [Option.isSome_iff_exists] at hsome
    obtain ⟨l, hl⟩ := hsome
    rw [hl, ht]
    exact ⟨rfl, rfl⟩
  · intro hnone t ht
    have hsome := hfov t ht
    rw [Option.isSome_iff_exists] at hsome
    obtain ⟨l, hl⟩ := hsome
    rw [hl, hnone, ht]
    exact ⟨rfl, rfl⟩
  · intro hnone1 hnone2 l hl
    rw [hl, hnone1, hnone2]
    exact ⟨rfl, rfl⟩

/-- C2 witness: the commit that both id-matches task T-2 and file-overlaps
task T-1 links via the task-id match at confidence 1.0, even though the
overlap scan would have found T-1. -/
theorem correlate_commit_spec_witness :
    TemporalCorrelator.findIdMatch
      (evict 2 c2State.task_commit_window c2State.tasks) c2Commit = some (1, c2TaskB) ∧
    TemporalCorrelator.findFileOverlap
      (evict 2 c2State.task_commit_window c2State.tasks) c2Commit = some (0, c2TaskA) ∧
    ((c2State.correlate_commit 2 99 c2Commit).2 =
      some (TemporalCorrelator.annotateCommit c2Commit c2TaskB "task_match",
            TemporalCorrelator.mkLinkedEvent 99 c2Commit c2TaskB "task_match")) ∧
    (TemporalCorrelator.mkLinkedEvent 99 c2Commit c2TaskB "task_match").confidence = 1 :=
  ⟨rfl, rfl,
   ((correlate_commit_spec c2State 2 99 c2Commit).2.2.1 (1, c2TaskB) rfl).1,
   ((correlate_commit_spec c2State 2 99 c2Commit).2.2.1 (1, c2TaskB) rfl).2⟩

/-- C5: cluster detection evicts all four windows to the cluster horizon;
with exactly 2 distinct sources present nothing fires, and with at least 3
distinct sources including the trigger's own, exactly one activity-clustered
event fires, carrying fixed confidence 0.7 and an event-id list capped at
50 entries. -/
theorem check_cluster_spec (c : TemporalCorrelator) (now : ℤ) (i : Nat)
    (trigger : WorkflowEvent) :
    ((c.check_cluster now i trigger).1 = c.evict_all now c.cluster_window)
    ∧ ((TemporalCorrelator.cluster_sources (c.evict_all now c.cluster_window)).length = 2 →
        (c.check_cluster now i trigger).2 = none)
    ∧ (3 ≤ (TemporalCorrelator.cluster_sources (c.evict_all now c.cluster_window)).length →
       trigger.source ∈ TemporalCorrelator.cluster_sources (c.evict_all now c.cluster_window) →
        (c.check_cluster now i trigger).2 =
          some { id := i
                 source := "agent"
                 event_type := EventType.WORKFLOW_ACTIVITY_CLUSTERED
                 correlated_events := some
                   (((TemporalCorrelator.cluster_entries
                       (c.evict_all now c.cluster_window)).map
                     (fun ev => ev.id)).take 50)
                 correlation_type := some "temporal_cluster"
                 confidence := 7/10 })
    ∧ (∀ ev, (c.check_cluster now i trigger).2 = some ev →
        ev.confidence = 7/10 ∧ ev.event_type = EventType.WORKFLOW_ACTIVITY_CLUSTERED ∧
        (ev.correlated_events.getD []).length ≤ 50) := by
  unfold TemporalCorrelator.check_cluster
  dsimp only
  refine ⟨?_, ?_, ?_, ?_⟩
  · split_ifs <;> rfl
  · intro h2
    rw [if_pos (by omega)]
  · intro h3 hmem
    rw [if_neg (by omega), if_neg (by simp [hmem])]
  · intro ev hev
    by_cases g1 : (TemporalCorrelator.cluster_sources
        (c.evict_all now c.cluster_window)).length < 3
    · rw [if_pos g1] at hev
      exact absurd hev (by simp)
    · by_cases g2 : trigger.source ∈ TemporalCorrelator.cluster_sources
          (c.evict_all now c.cluster_window)
      · rw [if_neg g1, if_neg (not_not_intro g2)] at hev
        simp only [Option.some_inj] at hev
        subst hev
        refine ⟨rfl, rfl, ?_⟩
        simp only [Option.getD_some, List.length_take]
        omega
      · rw [if_neg g1, if_pos g2] at hev
        exact absurd hev (by simp)

/-- C5 witness: with task+commit+filesystem events inside the horizon and a
git trigger, exactly one cluster event fires at confidence 0.7; with only
task+commit present, nothing fires. -/
theorem check_cluster_spec_witness :
    3 ≤ (TemporalCorrelator.cluster_sources
          (c5State.evict_all 0 c5State.cluster_window)).length ∧
    "git" ∈ TemporalCorrelator.cluster_sources
          (c5State.evict_all 0 c5State.cluster_window) ∧
    ((c5State.check_cluster 0 77 c5Commit).2 =
      some { id := 77
             source := "agent"
             event_type := EventType.WORKFLOW_ACTIVITY_CLUSTERED
             correlated_events := some
               (((TemporalCorrelator.cluster_entries
                   (c5State.evict_all 0 c5State.cluster_window)).map
                 (fun ev => ev.id)).take 50)
             correlation_type := some "temporal_cluster"
             confidence := 7/10 }) ∧
    (TemporalCorrelator.cluster_sources
      (c5TwoState.evict_all 0 c5TwoState.cluster_window)).length = 2 ∧
    (c5TwoState.check_cluster 0 77 c5Commit).2 = none :=
  ⟨by decide, by decide,
   (check_cluster_spec c5State 0 77 c5Commit).2.2.1 (by decide) (by decide),
   by decide,
   (check_cluster_spec c5TwoState 0 77 c5Commit).2.1 (by decide)⟩

/-- C10: recording an event whose source is outside the four correlated
sources (for example a derived `agent` cluster event), or an antigravity
event carrying no task id, leaves the correlator completely unchanged, so
such events never feed commit linking or cluster detection. -/
theorem record_frame_spec (c : TemporalCorrelator) (now : ℤ) (e : WorkflowEvent)
    (h : (e.source ≠ "antigravity" ∧ e.source ≠ "git" ∧
          e.source ≠ "filesystem" ∧ e.source ≠ "copilot") ∨
         (e.source = "antigravity" ∧ strTruthy e.task_id = false)) :
    c.record now e = c := by
  unfold TemporalCorrelator.record
  rcases h with ⟨h1, h2, h3, h4⟩ | ⟨hs, ht⟩
  · rw [if_neg (fun g => h1 g.1), if_neg h2, if_neg h3, if_neg h4]
  · rw [if_neg (fun g => absurd (g.2.symm.trans ht) (by decide)),
        if_neg (fun g => absurd (hs.symm.trans g) (by decide)),
        if_neg (fun g => absurd (hs.symm.trans g) (by decide)),
        if_neg (fun g => absurd (hs.symm.trans g) (by decide))]

/-- C10 witness: a derived agent cluster event and a task-id-less planning
event each leave a populated correlator untouched. -/
theorem record_frame_spec_witness :
    c5State.record 5 c10Cluster = c5State ∧
    c5State.record 5 c10Task = c5State :=
  ⟨record_frame_spec c5State 5 c10Cluster (Or.inl (by decide)),
   record_frame_spec c5State 5 c10Task (Or.inr ⟨rfl, rfl⟩)⟩

end Picoclaw
